import Mathlib

/-!
Verification of the WebTalk HTTP serving core: the `ServerConfig` data model,
configuration load/save/update (`src/server.py`), the model-reload decision in
`POST /config`, the `/health` endpoint, and the `POST /transcribe` handler of
`src/whisper_server.py` (content-type / size validation and temporary-file
cleanup).  Machine integers are modelled as `Int`/`Nat`; the external
`whisper.load_model` and `model.transcribe` collaborators are abstracted as
parameters (a load function, a transcription outcome).
-/

/-- A JSON scalar value as it appears in the config file: the config schema
only ever stores strings and integers. -/
inductive JVal where
  | str (s : String)
  | num (n : Int)
deriving DecidableEq, Repr

/-- A parsed JSON object: an association list from keys to values. -/
abbrev JObj := List (String × JVal)

/-- Dictionary lookup on a JSON object (first binding wins, as in Python). -/
def lookupJ : JObj → String → Option JVal
  | [], _ => none
  | (k, v) :: rest, key => if k = key then some v else lookupJ rest key

/-- Whether the first character list is a prefix of the second. -/
def charsPrefixOf : List Char → List Char → Bool
  | [], _ => true
  | _ :: _, [] => false
  | a :: as, b :: bs => a == b && charsPrefixOf as bs

/-- Python's `s.startswith(p)`. -/
def strStartsWith (s p : String) : Bool := charsPrefixOf p.data s.data

/-- Accumulating decimal parse of a digit run; `none` when a non-digit is hit
or the run is empty. -/
def digitsToNat : List Char → Option Nat → Option Nat
  | [], acc => acc
  | c :: cs, acc =>
      if c.isDigit then
        match acc with
        | none => digitsToNat cs (some (c.toNat - 48))
        | some n => digitsToNat cs (some (n * 10 + (c.toNat - 48)))
      else none

/-- Python's `int(s)` on a plain decimal string (an optional sign followed by
digits); `none` models a raised `ValueError`. -/
def strToInt (s : String) : Option Int :=
  match s.data with
  | '-' :: rest => (digitsToNat rest none).map (fun n => -(n : Int))
  | l => (digitsToNat l none).map (fun n => (n : Int))

/-- The pydantic `ServerConfig` model of `src/server.py` (lines 29-35). -/
structure ServerConfig where
  compute_engine : String
  model : String
  microphone : String
  server_port : Int
  auth_key : String
  openai_api_key : String
deriving DecidableEq, Repr

/-- The hard-coded field defaults of `ServerConfig` (`src/server.py` 30-35). -/
def defaultConfig : ServerConfig :=
  { compute_engine := "gpu", model := "base", microphone := "default",
    server_port := 8000, auth_key := "", openai_api_key := "" }

/-- The dump `current_config.model_dump()` serialized by `json.dump`
(`save_config`, `src/server.py` 71-77): all six known keys are written. -/
def dumpConfig (c : ServerConfig) : JObj :=
  [("compute_engine", .str c.compute_engine),
   ("model", .str c.model),
   ("microphone", .str c.microphone),
   ("server_port", .num c.server_port),
   ("auth_key", .str c.auth_key),
   ("openai_api_key", .str c.openai_api_key)]

/-- Pydantic parsing of one string field: a missing key takes the default,
a JSON string is accepted as-is, an integer does not validate as a string. -/
def parseStrField (o : JObj) (k : String) (d : String) : Option String :=
  match lookupJ o k with
  | none => some d
  | some (.str s) => some s
  | some (.num _) => none

/-- Pydantic parsing of one integer field: a missing key takes the default,
a JSON integer is accepted, a string is coerced when it spells an integer. -/
def parseIntField (o : JObj) (k : String) (d : Int) : Option Int :=
  match lookupJ o k with
  | none => some d
  | some (.num n) => some n
  | some (.str s) => strToInt s

/-- Pydantic construction `ServerConfig(**config_data)` (`src/server.py` 61): each known key is
validated, missing keys keep the defaults, unknown keys are ignored;
`none` models a raised `ValidationError`. -/
def parseConfig (o : JObj) : Option ServerConfig := do
  let ce ← parseStrField o "compute_engine" defaultConfig.compute_engine
  let md ← parseStrField o "model" defaultConfig.model
  let mic ← parseStrField o "microphone" defaultConfig.microphone
  let sp ← parseIntField o "server_port" defaultConfig.server_port
  let ak ← parseStrField o "auth_key" defaultConfig.auth_key
  let oa ← parseStrField o "openai_api_key" defaultConfig.openai_api_key
  pure { compute_engine := ce, model := md, microphone := mic,
         server_port := sp, auth_key := ak, openai_api_key := oa }

/-- The on-disk state of `webtalk_config.json`: absent, present and parsed as
a JSON object, or present with content `json.load` cannot parse. -/
inductive ConfigFile where
  | missing
  | json (o : JObj)
  | malformed (raw : String)
deriving DecidableEq, Repr

/-- The function `save_config` (`src/server.py` 71-77): writes the dump of the given
config to the file (the write is assumed to succeed). -/
def save_config (c : ServerConfig) : ConfigFile :=
  ConfigFile.json (dumpConfig c)

/-- The function `load_config` (`src/server.py` 54-69): returns the loaded config together
with the file state after the call.  A missing file is created with the
defaults (`save_config` on the module-level default instance); a present file
is read in mode `r` only, so any parse or validation failure leaves it
unchanged and falls back to the defaults. -/
def load_config : ConfigFile → ServerConfig × ConfigFile
  | ConfigFile.missing => (defaultConfig, save_config defaultConfig)
  | ConfigFile.json o =>
      match parseConfig o with
      | some c => (c, ConfigFile.json o)
      | none => (defaultConfig, ConfigFile.json o)
  | ConfigFile.malformed raw => (defaultConfig, ConfigFile.malformed raw)

/-- The JSON body of a `POST /config` request: any subset of the known fields
may be present (unknown keys are ignored by pydantic). -/
structure PartialBody where
  compute_engine : Option String := none
  model : Option String := none
  microphone : Option String := none
  server_port : Option Int := none
  auth_key : Option String := none
  openai_api_key : Option String := none
deriving DecidableEq, Repr

/-- FastAPI parsing of the request body into the `config : ServerConfig`
parameter of `update_config`: every field of `ServerConfig` has a default, so
a present key takes the body's value and an absent key takes the hard-coded
default (not the currently stored value). -/
def parseBody (b : PartialBody) : ServerConfig :=
  { compute_engine := b.compute_engine.getD defaultConfig.compute_engine,
    model := b.model.getD defaultConfig.model,
    microphone := b.microphone.getD defaultConfig.microphone,
    server_port := b.server_port.getD defaultConfig.server_port,
    auth_key := b.auth_key.getD defaultConfig.auth_key,
    openai_api_key := b.openai_api_key.getD defaultConfig.openai_api_key }

/-- The loaded whisper model handle: its name and the device it was loaded
on (the global `model` of `src/server.py`). -/
structure LoadedModel where
  name : String
  device : String
deriving DecidableEq, Repr

/-- The mutable module-level state of `src/server.py`: the in-memory config,
the loaded model (or `None`), and the config file on disk. -/
structure ServerState where
  current_config : ServerConfig
  model : Option LoadedModel
  disk : ConfigFile
deriving DecidableEq, Repr

/-- The HTTP outcome of `POST /config` (`src/server.py` 169 and 172):
either the success JSON or the `HTTPException(500)` raised by the blanket
`except` (whose detail embeds the exception text, abstracted here). -/
inductive ConfigResp where
  | success
  | error500
deriving DecidableEq, Repr

/-- The full observable outcome of one `POST /config` request. -/
structure UpdateResult where
  state : ServerState
  resp : ConfigResp
  reloadAttempted : Bool
deriving DecidableEq, Repr

/-- Modelled from the spec: the external `whisper.load_model` collaborator
(not part of this repository).  Per the TranscriptionEngine contract, loading
fails when the model name is outside the model catalog and otherwise yields a
model bound to the requested device. -/
def whisperLoad (name device : String) : Option LoadedModel :=
  if validModels.contains name then some { name := name, device := device }
  else none
where
  /-- Modelled from the spec: the fixed model catalog. -/
  validModels : List String :=
    ["tiny", "base", "small", "medium", "large", "large-v2", "large-v3", "turbo"]

/-- The function `update_config`, the `POST /config` handler (`src/server.py` 144-172).
`load` abstracts `whisper.load_model` (returning `none` models a raised
exception); `cuda` is `torch.cuda.is_available()`.  The body is parsed into a
full `ServerConfig`, stored and saved; then the model is reloaded when it is
`None` or the model name or compute engine changed; a raised load error is
converted to `HTTPException(500)` by the `except` block, after the new config
was already stored and saved. -/
def update_config (cuda : Bool) (load : String → String → Option LoadedModel)
    (st : ServerState) (body : PartialBody) : UpdateResult :=
  let config := parseBody body
  let old := st.current_config
  let st1 : ServerState :=
    { st with current_config := config, disk := save_config config }
  let needs_reload : Bool :=
    st.model.isNone || config.model != old.model ||
      config.compute_engine != old.compute_engine
  if needs_reload then
    let device := if config.compute_engine == "gpu" && cuda then "cuda" else "cpu"
    match load config.model device with
    | some m =>
        { state := { st1 with model := some m }, resp := ConfigResp.success,
          reloadAttempted := true }
    | none =>
        { state := st1, resp := ConfigResp.error500, reloadAttempted := true }
  else
    { state := st1, resp := ConfigResp.success, reloadAttempted := false }

/-- The function `get_config`, the `GET /config` handler (`src/server.py` 139-142):
returns the dump of the in-memory config. -/
def get_config (st : ServerState) : ServerConfig :=
  st.current_config

/-- Device resolution at startup (`src/server.py` 107-110): `cuda` only when
the config requests the gpu engine and a CUDA accelerator is available. -/
def startup_device (c : ServerConfig) (cuda : Bool) : String :=
  if c.compute_engine == "gpu" && cuda then "cuda" else "cpu"

/-- The function `startup_event` (`src/server.py` 97-117): loads the configured model on
the resolved device; `none` models the raised exception that aborts startup. -/
def startup_event (cuda : Bool) (load : String → String → Option LoadedModel)
    (c : ServerConfig) : Option LoadedModel :=
  load c.model (startup_device c cuda)

/-- The `GET /health` response (`src/server.py` 124-137): the 503 when no
model is loaded, or the healthy JSON. -/
inductive HealthResp where
  | unavailable (status : Nat) (detail : String)
  | healthy (device : String) (model : String) (cuda_available : Bool)
      (cuda_devices : Nat)
deriving DecidableEq, Repr

/-- The function `health_check` (`src/server.py` 124-137).  Here `cuda` is
`torch.cuda.is_available()` at request time and `deviceCount` is
`torch.cuda.device_count()`.  The reported device is recomputed from CUDA
availability alone, not from the device the model was loaded on. -/
def health_check (model : Option LoadedModel) (cfg : ServerConfig)
    (cuda : Bool) (deviceCount : Nat) : HealthResp :=
  match model with
  | none => HealthResp.unavailable 503 "Model not loaded"
  | some _ =>
      HealthResp.healthy (if cuda then "cuda" else "cpu") cfg.model cuda
        (if cuda then deviceCount else 0)

/-- The device field of a health response, when the response is healthy. -/
def healthDevice : HealthResp → Option String
  | HealthResp.unavailable _ _ => none
  | HealthResp.healthy d _ _ _ => some d

/-- The outcome of invoking the underlying model's transcribe capability
(`transcriber.transcribe` / `model.transcribe`), abstracted: a text and
language on success, or a raised exception with its message. -/
inductive TranscribeOutcome where
  | ok (text : String) (lang : String)
  | fail (msg : String)
deriving DecidableEq, Repr

/-- An HTTP response of `POST /transcribe`: the success JSON
`{success, transcription, language, filename}` or an error with its status. -/
inductive Resp where
  | ok (transcription : String) (language : String) (filename : String)
  | err (status : Nat) (detail : String)
deriving DecidableEq, Repr

/-- The observable outcome of one `POST /transcribe` request: the response,
whether the transcription engine was invoked, the temporary files created for
the request, and those still existing when the handler returns. -/
structure TResult where
  resp : Resp
  engineInvoked : Bool
  tempCreated : List String
  tempRemaining : List String
deriving DecidableEq, Repr

/-- The content-type allow-list of `src/whisper_server.py` line 144. -/
def valid_types : List String := ["audio/", "video/webm", "application/octet-stream"]

/-- The function `transcribe_audio`, the `POST /transcribe` handler of
`src/whisper_server.py` (lines 129-225).  `transcriber` is the global
`WhisperTranscriber` (or `None`), `decodeOk` abstracts whether the soundfile
decode of a non-wav/webm body succeeds, `engine` the underlying transcribe
call, `base` the fresh path stem chosen by `tempfile.NamedTemporaryFile`,
`ct` the declared content type and `body` the uploaded bytes.

The 503 and the content-type 400 are raised outside the `try` block and reach
the client unchanged.  The empty-body and too-small `HTTPException(400)` are
raised inside the `try`, so the blanket `except Exception` catches them and
re-raises `HTTPException(500, "Transcription failed: " + str(e))`: the client
receives a 500 for these, not the 400 the raise asked for.  In the decode
branch the source sets `temp_file_path = temp_file.name.replace(file_suffix,
".wav")`; that branch is only reached when the content type is not webm, so
`file_suffix` is already `".wav"` and the replacement leaves the path of the
file just created unchanged — every branch writes to the single temp file,
which is unlinked on the success path and in the `except` block. -/
def transcribe_audio (transcriber : Option LoadedModel) (decodeOk : Bool)
    (engine : TranscribeOutcome) (base : String) (ct : Option String)
    (body : List Nat) (fname : String) : TResult :=
  match transcriber with
  | none =>
      { resp := Resp.err 503 "Transcriber not initialized",
        engineInvoked := false, tempCreated := [], tempRemaining := [] }
  | some _ =>
    match ct with
    | none =>
        { resp := Resp.err 400 "Invalid audio file type: None",
          engineInvoked := false, tempCreated := [], tempRemaining := [] }
    | some t =>
      if ¬ (valid_types.any (fun p => strStartsWith t p)) then
        { resp := Resp.err 400 ("Invalid audio file type: " ++ t),
          engineInvoked := false, tempCreated := [], tempRemaining := [] }
      else if body.length = 0 then
        { resp := Resp.err 500 "Transcription failed: 400: Empty audio file",
          engineInvoked := false, tempCreated := [], tempRemaining := [] }
      else if body.length < 100 then
        { resp := Resp.err 500 "Transcription failed: 400: Audio file too small",
          engineInvoked := false, tempCreated := [], tempRemaining := [] }
      else
        let suffix :=
          if strStartsWith t "video/webm" || strStartsWith t "audio/webm" then ".webm"
          else ".wav"
        let path := base ++ suffix
        match engine with
        | TranscribeOutcome.ok text lang =>
            { resp := Resp.ok text lang fname, engineInvoked := true,
              tempCreated := [path], tempRemaining := [] }
        | TranscribeOutcome.fail msg =>
            { resp := Resp.err 500 ("Transcription failed: " ++ msg),
              engineInvoked := true, tempCreated := [path], tempRemaining := [] }

/-- The function `transcribe_audio`, the `POST /transcribe` handler of `src/server.py`
(lines 174-218): no content-type or minimum-size validation; the empty-body
400 is likewise raised inside the `try` and re-wrapped as a 500 by the
`except` block.  Only the response is needed here. -/
def sv_transcribe_audio (model : Option LoadedModel)
    (engine : TranscribeOutcome) (body : List Nat) (fname : String) : Resp :=
  match model with
  | none => Resp.err 503 "Model not loaded"
  | some _ =>
    if body.length = 0 then
      Resp.err 500 "Transcription failed: 400: Empty audio file"
    else
      match engine with
      | TranscribeOutcome.ok text lang => Resp.ok text lang fname
      | TranscribeOutcome.fail msg =>
          Resp.err 500 ("Transcription failed: " ++ msg)

/-! Helper lemmas about `update_config`, shared by several claims. -/

lemma update_config_current_config (cuda : Bool)
    (load : String → String → Option LoadedModel) (st : ServerState)
    (b : PartialBody) :
    (update_config cuda load st b).state.current_config = parseBody b := by
  unfold update_config
  dsimp only
  split
  · split <;> rfl
  · rfl

lemma update_config_disk (cuda : Bool)
    (load : String → String → Option LoadedModel) (st : ServerState)
    (b : PartialBody) :
    (update_config cuda load st b).state.disk = save_config (parseBody b) := by
  unfold update_config
  dsimp only
  split
  · split <;> rfl
  · rfl

lemma update_config_attempted (cuda : Bool)
    (load : String → String → Option LoadedModel) (st : ServerState)
    (b : PartialBody) :
    (update_config cuda load st b).reloadAttempted =
      (st.model.isNone || (parseBody b).model != st.current_config.model ||
        (parseBody b).compute_engine != st.current_config.compute_engine) := by
  unfold update_config
  dsimp only
  split
  next h => split <;> exact h.symm
  next h =>
    rw [Bool.not_eq_true] at h
    exact h.symm

lemma update_config_model_of_not_attempted (cuda : Bool)
    (load : String → String → Option LoadedModel) (st : ServerState)
    (b : PartialBody)
    (h : (update_config cuda load st b).reloadAttempted = false) :
    (update_config cuda load st b).state.model = st.model := by
  revert h
  unfold update_config
  dsimp only
  split
  · split <;> intro h <;> simp at h
  · intro _; rfl

/-! Concrete instances used by the C1 counterexample. -/

/-- A reachable server state whose stored model field is `"small"`. -/
def stC1 : ServerState :=
  { current_config := { defaultConfig with model := "small" },
    model := some { name := "small", device := "cuda" },
    disk := save_config { defaultConfig with model := "small" } }

/-- A partial body that sets only `auth_key`; every other field is omitted. -/
def bodyC1 : PartialBody := { auth_key := some "k" }

/-- C1 counterexample: posting a body that only sets `auth_key` to a server
whose stored model is `"small"` makes a subsequent `GET /config` report model
`"base"` — the omitted `model` field is reset to the hard-coded default, not
kept at its pre-update value, so the claim as stated is false. -/
theorem C1_counterexample :
    bodyC1.model = none ∧
    stC1.current_config.model = "small" ∧
    (get_config (update_config true whisperLoad stC1 bodyC1).state).model = "base" ∧
    (get_config (update_config true whisperLoad stC1 bodyC1).state).model ≠
      stC1.current_config.model := by decide

/-- C1 (amended): after `POST /config` with body `B`, the configuration
returned by `GET /config` has, in every field, `B`'s value when the field is
present in `B` and the hard-coded default otherwise — omitted fields are reset
to the defaults, not kept at their pre-update values. -/
theorem C1_amended (cuda : Bool) (load : String → String → Option LoadedModel)
    (st : ServerState) (b : PartialBody) :
    get_config (update_config cuda load st b).state =
      { compute_engine := b.compute_engine.getD defaultConfig.compute_engine,
        model := b.model.getD defaultConfig.model,
        microphone := b.microphone.getD defaultConfig.microphone,
        server_port := b.server_port.getD defaultConfig.server_port,
        auth_key := b.auth_key.getD defaultConfig.auth_key,
        openai_api_key := b.openai_api_key.getD defaultConfig.openai_api_key } :=
  update_config_current_config cuda load st b

/-- C2: for a server that has a loaded model (which is the case whenever the
server is serving requests, since a failed first load aborts startup), a
`POST /config` attempts a model reload if and only if the new model name or
the new compute engine differs from the old one; when neither differs — in
particular when only `auth_key` changes — no reload is attempted and the
loaded model instance is untouched. -/
theorem C2_theorem (cuda : Bool) (load : String → String → Option LoadedModel)
    (st : ServerState) (b : PartialBody) (m : LoadedModel)
    (hm : st.model = some m) :
    ((update_config cuda load st b).reloadAttempted = true ↔
      ((parseBody b).model ≠ st.current_config.model ∨
        (parseBody b).compute_engine ≠ st.current_config.compute_engine)) ∧
    ((parseBody b).model = st.current_config.model →
      (parseBody b).compute_engine = st.current_config.compute_engine →
      (update_config cuda load st b).reloadAttempted = false ∧
      (update_config cuda load st b).state.model = st.model) := by
  have ha := update_config_attempted cuda load st b
  rw [hm] at ha
  simp only [Option.isNone_some, Bool.false_or] at ha
  constructor
  · rw [ha]
    simp [Bool.or_eq_true, bne_iff_ne]
  · intro h1 h2
    have hf : (update_config cuda load st b).reloadAttempted = false := by
      rw [ha, h1, h2]
      simp
    exact ⟨hf, update_config_model_of_not_attempted cuda load st b hf⟩

/-- A server state with a loaded `"base"` model, used by the C2 witness. -/
def stC2 : ServerState :=
  { current_config := defaultConfig,
    model := some { name := "base", device := "cuda" },
    disk := save_config defaultConfig }

/-- A full body that changes only the model name, used by the C2 witness. -/
def bodyC2 : PartialBody :=
  { compute_engine := some "gpu", model := some "small",
    microphone := some "default", server_port := some 8000,
    auth_key := some "", openai_api_key := some "" }

/-- C2 witness: at a concrete loaded state, a body changing the model name
triggers a reload attempt. -/
theorem C2_witness :
    (update_config true whisperLoad stC2 bodyC2).reloadAttempted = true :=
  ((C2_theorem true whisperLoad stC2 bodyC2
      { name := "base", device := "cuda" } rfl).1).mpr (Or.inl (by decide))

/-- A server state with a loaded `"base"` model, used for C3. -/
def stC3 : ServerState :=
  { current_config := defaultConfig,
    model := some { name := "base", device := "cuda" },
    disk := save_config defaultConfig }

/-- A body requesting an unrecognized model name, used for C3. -/
def bodyC3 : PartialBody := { model := some "bogus" }

/-- C3 counterexample: when the reload triggered by `POST /config` fails
(unrecognized model name) the handler's blanket `except` raises
`HTTPException(500)`, an undifferentiated error — the response does not
indicate that persistence succeeded, so the claim as stated is false. -/
theorem C3_counterexample :
    (update_config true whisperLoad stC3 bodyC3).resp = ConfigResp.error500 ∧
    (update_config true whisperLoad stC3 bodyC3).resp ≠ ConfigResp.success := by
  decide

/-- C3 (amended): when the reload triggered by `POST /config` fails after a
model was previously loaded, the previously loaded model remains the active
model and subsequent `POST /transcribe` requests succeed with it, and the new
configuration has in fact been persisted in memory and on disk — but the
response is an undifferentiated HTTP 500 error rather than a success that
reports the reload failure distinctly from persistence. -/
theorem C3_theorem (cuda : Bool) (load : String → String → Option LoadedModel)
    (st : ServerState) (b : PartialBody) (m : LoadedModel)
    (t l : String) (body : List Nat) (f : String)
    (hm : st.model = some m)
    (hch : (parseBody b).model ≠ st.current_config.model)
    (hfail : ∀ d, load (parseBody b).model d = none)
    (hbody : ¬ body.length = 0) :
    (update_config cuda load st b).state.model = some m ∧
    (update_config cuda load st b).state.current_config = parseBody b ∧
    (update_config cuda load st b).state.disk = save_config (parseBody b) ∧
    (update_config cuda load st b).resp = ConfigResp.error500 ∧
    sv_transcribe_audio (update_config cuda load st b).state.model
      (TranscribeOutcome.ok t l) body f = Resp.ok t l f := by
  have hcond : (st.model.isNone || (parseBody b).model != st.current_config.model ||
      (parseBody b).compute_engine != st.current_config.compute_engine) = true := by
    simp [bne_iff_ne, hch]
  have heval : update_config cuda load st b =
      { state := { current_config := parseBody b, model := st.model,
                   disk := save_config (parseBody b) },
        resp := ConfigResp.error500, reloadAttempted := true } := by
    unfold update_config
    dsimp only
    rw [if_pos hcond, hfail]
  rw [heval, hm]
  refine ⟨rfl, rfl, rfl, rfl, ?_⟩
  unfold sv_transcribe_audio
  rw [if_neg hbody]

/-- C3 witness: at a concrete loaded state and a body with an unrecognized
model name, the old model is retained, the new config is persisted, the
response is the undifferentiated 500, and transcription still succeeds. -/
theorem C3_witness :
    (update_config true whisperLoad stC3 bodyC3).state.model =
      some { name := "base", device := "cuda" } ∧
    (update_config true whisperLoad stC3 bodyC3).state.current_config =
      parseBody bodyC3 ∧
    (update_config true whisperLoad stC3 bodyC3).state.disk =
      save_config (parseBody bodyC3) ∧
    (update_config true whisperLoad stC3 bodyC3).resp = ConfigResp.error500 ∧
    sv_transcribe_audio (update_config true whisperLoad stC3 bodyC3).state.model
      (TranscribeOutcome.ok "hello" "en") [0] "r.webm" =
      Resp.ok "hello" "en" "r.webm" :=
  C3_theorem true whisperLoad stC3 bodyC3 { name := "base", device := "cuda" }
    "hello" "en" [0] "r.webm" rfl (by decide) (fun _ => rfl) (by decide)

/-- C4 code behavior: in `src/whisper_server.py` the empty-body and
too-small-body `HTTPException(400)` are raised inside the `try` block, so the
blanket `except Exception` re-raises them as HTTP 500 — the client receives
500, not the 400 the claim states — while the engine is indeed never invoked;
the content-type check, raised outside the `try`, does return 400. -/
theorem C4_code_behavior :
    (transcribe_audio (some { name := "turbo", device := "cpu" }) true
      (TranscribeOutcome.ok "hi" "en") "tmp" (some "audio/wav") [] "a.wav").resp =
      Resp.err 500 "Transcription failed: 400: Empty audio file" ∧
    (transcribe_audio (some { name := "turbo", device := "cpu" }) true
      (TranscribeOutcome.ok "hi" "en") "tmp" (some "audio/wav") []
      "a.wav").engineInvoked = false ∧
    (transcribe_audio (some { name := "turbo", device := "cpu" }) true
      (TranscribeOutcome.ok "hi" "en") "tmp" (some "audio/wav")
      (List.replicate 50 0) "a.wav").resp =
      Resp.err 500 "Transcription failed: 400: Audio file too small" ∧
    (transcribe_audio (some { name := "turbo", device := "cpu" }) true
      (TranscribeOutcome.ok "hi" "en") "tmp" (some "audio/wav")
      (List.replicate 50 0) "a.wav").engineInvoked = false ∧
    (transcribe_audio (some { name := "turbo", device := "cpu" }) true
      (TranscribeOutcome.ok "hi" "en") "tmp" (some "text/plain")
      (List.replicate 200 0) "a.txt").resp =
      Resp.err 400 "Invalid audio file type: text/plain" ∧
    (transcribe_audio (some { name := "turbo", device := "cpu" }) true
      (TranscribeOutcome.ok "hi" "en") "tmp" (some "text/plain")
      (List.replicate 200 0) "a.txt").engineInvoked = false := by
  decide

/-- C5: on every exit path of the `POST /transcribe` handler of
`src/whisper_server.py` — early rejection, successful transcription, decode
failure with raw-byte fallback, transcription failure — no temporary file
remains when the handler returns; and whenever the engine was invoked a
temporary file had really been created (so the cleanup is not vacuous). -/
theorem C5_theorem (tr : Option LoadedModel) (decodeOk : Bool)
    (engine : TranscribeOutcome) (base : String) (ct : Option String)
    (body : List Nat) (f : String) :
    (transcribe_audio tr decodeOk engine base ct body f).tempRemaining = [] ∧
    ((transcribe_audio tr decodeOk engine base ct body f).engineInvoked = true →
      (transcribe_audio tr decodeOk engine base ct body f).tempCreated ≠ []) := by
  unfold transcribe_audio
  cases tr <;> cases ct <;> dsimp only
  · simp
  · simp
  · simp
  · split_ifs <;> cases engine <;> simp

/-- C5 witness: a concrete valid wav request creates a temporary file and
leaves none behind. -/
theorem C5_witness :
    (transcribe_audio (some { name := "turbo", device := "cpu" }) true
      (TranscribeOutcome.ok "hi" "en") "tmp" (some "audio/wav")
      (List.replicate 100 0) "a.wav").tempRemaining = [] ∧
    (transcribe_audio (some { name := "turbo", device := "cpu" }) true
      (TranscribeOutcome.ok "hi" "en") "tmp" (some "audio/wav")
      (List.replicate 100 0) "a.wav").tempCreated ≠ [] :=
  ⟨(C5_theorem (some { name := "turbo", device := "cpu" }) true
      (TranscribeOutcome.ok "hi" "en") "tmp" (some "audio/wav")
      (List.replicate 100 0) "a.wav").1,
   (C5_theorem (some { name := "turbo", device := "cpu" }) true
      (TranscribeOutcome.ok "hi" "en") "tmp" (some "audio/wav")
      (List.replicate 100 0) "a.wav").2 (by decide)⟩

/-- C6: `load_config` behaves case-wise — a missing file is created with the
defaults and the defaults are returned; a file that exists but fails to parse
or validate makes it return the defaults while the file on disk is preserved
byte-for-byte. -/
theorem C6_theorem :
    load_config ConfigFile.missing =
      (defaultConfig, ConfigFile.json (dumpConfig defaultConfig)) ∧
    (∀ raw, load_config (ConfigFile.malformed raw) =
      (defaultConfig, ConfigFile.malformed raw)) ∧
    (∀ o, parseConfig o = none →
      load_config (ConfigFile.json o) = (defaultConfig, ConfigFile.json o)) := by
  refine ⟨rfl, fun raw => rfl, fun o h => ?_⟩
  simp only [load_config, h]

/-- A stored object whose `server_port` does not validate as an integer. -/
def badObj : JObj := [("server_port", JVal.str "x")]

/-- C6 witness: a concrete file whose content fails validation is preserved
unchanged while the defaults are returned. -/
theorem C6_witness :
    load_config (ConfigFile.json badObj) =
      (defaultConfig, ConfigFile.json badObj) :=
  C6_theorem.2.2 badObj (by decide)

/-- C7: with `compute_engine = "gpu"` on a host with no CUDA accelerator, the
model is loaded on `"cpu"` (deterministic fallback) and `GET /health` in that
state reports device `"cpu"`, so the fallback is observable. -/
theorem C7_theorem (c : ServerConfig) (n : Nat)
    (hgpu : c.compute_engine = "gpu")
    (hcat : whisperLoad.validModels.contains c.model = true) :
    startup_event false whisperLoad c = some { name := c.model, device := "cpu" } ∧
    health_check (startup_event false whisperLoad c) c false n =
      HealthResp.healthy "cpu" c.model false 0 := by
  have hdev : startup_device c false = "cpu" := by
    unfold startup_device
    simp
  have hload : startup_event false whisperLoad c =
      some { name := c.model, device := "cpu" } := by
    unfold startup_event whisperLoad
    rw [hdev, if_pos hcat]
  refine ⟨hload, ?_⟩
  rw [hload]
  rfl

/-- C7 witness: the default config (gpu engine, base model) on a host with no
CUDA accelerator loads on cpu and health reports cpu. -/
theorem C7_witness :
    startup_event false whisperLoad defaultConfig =
      some { name := "base", device := "cpu" } ∧
    health_check (startup_event false whisperLoad defaultConfig) defaultConfig
      false 0 = HealthResp.healthy "cpu" "base" false 0 :=
  C7_theorem defaultConfig 0 rfl (by decide)

/-- C8: saving any `ServerConfig` to disk and loading it back yields the same
configuration field-for-field, with the file left as written. -/
theorem C8_theorem (c : ServerConfig) :
    load_config (save_config c) = (c, save_config c) := rfl

/-- C10: when a model is loaded, the device reported by `GET /health` is
computed solely from CUDA availability at request time, independent of the
configured compute engine and of the device the model was loaded on; in
particular with `compute_engine = "cpu"` on a CUDA host, startup loads the
model on `"cpu"` while `GET /health` reports `"cuda"`. -/
theorem C10_theorem (m : LoadedModel) (c : ServerConfig) (cuda : Bool) (n : Nat)
    (hcpu : c.compute_engine = "cpu")
    (hcat : whisperLoad.validModels.contains c.model = true) :
    health_check (some m) c cuda n =
      HealthResp.healthy (if cuda then "cuda" else "cpu") c.model cuda
        (if cuda then n else 0) ∧
    startup_event true whisperLoad c = some { name := c.model, device := "cpu" } ∧
    healthDevice (health_check (startup_event true whisperLoad c) c true n) =
      some "cuda" := by
  have hdev : startup_device c true = "cpu" := by
    unfold startup_device
    rw [hcpu]
    rfl
  have hload : startup_event true whisperLoad c =
      some { name := c.model, device := "cpu" } := by
    unfold startup_event whisperLoad
    rw [hdev, if_pos hcat]
  refine ⟨rfl, hload, ?_⟩
  rw [hload]
  rfl

/-- The cpu-engine configuration used by the C10 witness. -/
def cC10 : ServerConfig := { defaultConfig with compute_engine := "cpu" }

/-- C10 witness: with the cpu engine on a CUDA host with 2 devices, the model
runs on cpu while health reports cuda. -/
theorem C10_witness :
    health_check (some { name := "base", device := "cpu" }) cC10 true 2 =
      HealthResp.healthy "cuda" "base" true 2 ∧
    startup_event true whisperLoad cC10 = some { name := "base", device := "cpu" } ∧
    healthDevice (health_check (startup_event true whisperLoad cC10) cC10 true 2) =
      some "cuda" :=
  C10_theorem { name := "base", device := "cpu" } cC10 true 2 rfl (by decide)
